import Mathlib

/-!
Shallow embedding of the order-placement and address workflows of the
Swagger_Api Express/MongoDB backend.

Sources embedded:
* the order controller (addOrder, getOrder, updateOrderStatus);
* the Order mongoose schema (user, products[{product,quantity,price}],
  totalAmount, status, shippingAddress, paymentMethod, paymentStatus);
* the address controller (createAddress, updateAddress, deleteAddress);
* the product update controller (updateProduct), for catalog price changes.

Modelling conventions:
* JavaScript numbers are modelled as rationals (ℚ).
* MongoDB collections are lists of documents; `findById` / `findOne`
  return the first matching document (`List.find?`).
* Mongoose runs in strict mode (the default): a value passed to
  `Model.create` for a path that is not declared in the schema is
  silently dropped.  The order schema declares no `orderId` path, so the
  `orderId` generated by the controller is never stored; `OrderDoc.orderId`
  is an `Option String` because raw documents in the collection may still
  carry such a field (MongoDB itself is schemaless), and query filters on
  it are passed through to the store (`strictQuery: false`, the default of
  current mongoose releases).
* Mongoose document validation (required / min / enum) runs inside
  `create` before the insert; a failure surfaces as an exception that the
  controller's catch-all maps to status 400.
* The only uniqueness constraint on the orders collection is the `_id`
  index; a duplicate `_id` at insert time raises the duplicate-key error
  (code 11000) that the controller maps to status 400.
-/

namespace SwaggerApi

/-- JavaScript numbers, modelled as rationals. -/
abbrev JsNum := ℚ

/-- HTTP outcome of a controller: `ok code payload` for a JSON success
response, `err statusCode message` for an error passed to `next`. -/
inductive HttpResult (α : Type) where
  | ok : Nat → α → HttpResult α
  | err : Nat → String → HttpResult α
  deriving Repr, DecidableEq

/-- Catalog product document (models/Product.js).  Fields follow the
mongoose productSchema; presentation-only fields that none of the
embedded operations read (subImg, images, offerStrip, timestamps) are
carried as plain strings/booleans or omitted where unused. -/
structure Product where
  _id : String
  name : String
  description : String
  price : JsNum
  size : String
  image : String
  category : String
  isExplore : Bool
  deriving Repr, DecidableEq

/-- A stored order line item, per orderSchema.products:
`{ product, quantity (min 1), price (min 0) }`. -/
structure OrderLine where
  product : String
  quantity : JsNum
  price : JsNum
  deriving Repr, DecidableEq

/-- An order document, per the orderSchema.  Note: the schema declares no
`orderId` path; `orderId` here models the raw BSON field that a document
in the collection may or may not carry.  Documents produced by
`Order.create` never carry it (strict mode strips the unknown path). -/
structure OrderDoc where
  _id : Nat
  orderId : Option String
  user : String
  products : List OrderLine
  totalAmount : JsNum
  status : String
  shippingAddress : String
  paymentMethod : String
  paymentStatus : String
  deriving Repr, DecidableEq

/-- Modelled from the spec: models/Address.js is absent from the sources;
the field list is taken from §3 "Address" of the spec and from the
destructuring in the address controller (countryRegion, firstName,
lastName, address, apartmentSuite, city, state, pinCode, phone,
defaultAddress), with an owning `user` reference. -/
structure AddressFields where
  countryRegion : String
  firstName : String
  lastName : String
  address : String
  apartmentSuite : String
  city : String
  state : String
  pinCode : String
  phone : String
  deriving Repr, DecidableEq

/-- An address document: identity, owner, payload fields and the
`defaultAddress` boolean flag. -/
structure AddressDoc where
  _id : String
  user : String
  fields : AddressFields
  defaultAddress : Bool
  deriving Repr, DecidableEq

/-- A user document (models/User.js), restricted to the fields the order
workflow reads: identity, name, email and role. -/
structure UserDoc where
  _id : String
  firstName : String
  lastName : String
  email : String
  role : String
  deriving Repr, DecidableEq

/-- The database state: one list per collection, plus the `_id` the store
would assign to the next inserted order document. -/
structure DB where
  products : List Product
  addresses : List AddressDoc
  orders : List OrderDoc
  users : List UserDoc
  nextOrderId : Nat
  deriving Repr, DecidableEq

/-- A request line item as sent by the client: a product reference, a
quantity, and a possible client-supplied price (which the controller
never reads). -/
structure OrderItemIn where
  product : String
  quantity : JsNum
  clientPrice : Option JsNum
  deriving Repr, DecidableEq

/-- The body of POST /api/orders/add together with the authenticated
user's id.  `products = none` covers both an absent body field and a
non-array value (the controller treats them alike). -/
structure AddOrderReq where
  userId : String
  products : Option (List OrderItemIn)
  shippingAddress : Option String
  paymentMethod : Option String
  deriving Repr, DecidableEq

/-- JavaScript falsiness of an optional string: absent (`undefined`) and
the empty string are falsy. -/
def jsFalsy : Option String → Bool
  | none => true
  | some s => s == ""

/-- JavaScript String.prototype.trim, modelled directly on the character
list (drop whitespace from both ends). -/
def jsTrim (s : String) : String :=
  ⟨((s.data.dropWhile Char.isWhitespace).reverse.dropWhile Char.isWhitespace).reverse⟩

/-- The status enumeration of the orderSchema and of updateOrderStatus. -/
def validStatuses : List String :=
  ["pending", "processing", "shipped", "delivered", "cancelled"]

/-- The paymentMethod enumeration of the orderSchema. -/
def paymentMethods : List String :=
  ["credit_card", "debit_card", "paypal", "bank_transfer", "cash_on_delivery"]

/-- The paymentStatus enumeration of the orderSchema. -/
def paymentStatuses : List String :=
  ["pending", "paid", "failed", "refunded"]

/-- Mongoose document validation for an order, per the orderSchema:
every line needs quantity ≥ 1 and price ≥ 0, totalAmount ≥ 0, and the
status / paymentMethod / paymentStatus enumerations must be respected. -/
def orderValidate (o : OrderDoc) : Bool :=
  o.products.all (fun l => decide (1 ≤ l.quantity) && decide (0 ≤ l.price)) &&
  decide (0 ≤ o.totalAmount) &&
  validStatuses.contains o.status &&
  paymentMethods.contains o.paymentMethod &&
  paymentStatuses.contains o.paymentStatus

/-- The controller's per-item loop: resolve each product (404 naming the
id when absent), reject quantity < 1 (400, fixed message), capture the
catalog price into the line, and accumulate price × quantity into the
running total.  Short-circuits on the first failing item. -/
def validateItems (db : DB) : List OrderItemIn → Except (Nat × String) (List OrderLine × JsNum)
  | [] => .ok ([], 0)
  | item :: rest =>
    match db.products.find? (fun p => p._id == item.product) with
    | none => .error (404, "Product with id " ++ item.product ++ " not found")
    | some product =>
      if item.quantity < 1 then
        .error (400, "Product quantity must be at least 1")
      else
        match validateItems db rest with
        | .error e => .error e
        | .ok (lines, total) =>
          .ok ({ product := item.product, quantity := item.quantity, price := product.price } :: lines,
               product.price * item.quantity + total)

/-- The order document handed to `Order.create`.  The generated
`orderId` is not among its fields: `orderId` is not an orderSchema path,
so mongoose strict mode strips it before the insert.  `status` and
`paymentStatus` take their schema defaults. -/
def mkOrder (db : DB) (userId : String) (lines : List OrderLine) (total : JsNum)
    (shipAddr payM : String) : OrderDoc :=
  { _id := db.nextOrderId
    orderId := none
    user := userId
    products := lines
    totalAmount := total
    status := "pending"
    shippingAddress := shipAddr
    paymentMethod := payM
    paymentStatus := "pending" }

/-- addOrder (the order controller): field-presence checks, address
lookup, per-item validation with price capture, then a single
`Order.create` (document validation, duplicate-key check, insert). -/
def addOrder (req : AddOrderReq) (db : DB) : HttpResult OrderDoc × DB :=
  match req.products with
  | none => (.err 400 "Please provide products array", db)
  | some items =>
    if items.isEmpty then
      (.err 400 "Please provide products array", db)
    else if jsFalsy req.shippingAddress then
      (.err 400 "Please provide shipping address", db)
    else if jsFalsy req.paymentMethod then
      (.err 400 "Please provide payment method", db)
    else
      let trimmedPaymentMethod := jsTrim (req.paymentMethod.getD "")
      match db.addresses.find? (fun a => a._id == req.shippingAddress.getD "") with
      | none => (.err 404 "Shipping address not found", db)
      | some _ =>
        match validateItems db items with
        | .error e => (.err e.1 e.2, db)
        | .ok (validatedProducts, totalAmount) =>
          let order := mkOrder db req.userId validatedProducts totalAmount
            (req.shippingAddress.getD "") trimmedPaymentMethod
          if ¬ orderValidate order then
            (.err 400 "Order validation failed", db)
          else if db.orders.any (fun o => o._id == order._id) then
            (.err 400 "Duplicate order creation", db)
          else
            (.ok 201 order,
             { db with orders := db.orders ++ [order], nextOrderId := db.nextOrderId + 1 })

/-- Update the first list element satisfying `p` by `f`; the mongoose
`findOneAndUpdate` / `save` write pattern on a collection. -/
def updateFirst (p : α → Bool) (f : α → α) : List α → List α
  | [] => []
  | x :: xs => if p x then f x :: xs else x :: updateFirst p f xs

/-- Remove the first list element satisfying `p`; the
`findByIdAndDelete` write pattern on a collection. -/
def eraseFirst (p : α → Bool) : List α → List α
  | [] => []
  | x :: xs => if p x then xs else x :: eraseFirst p xs

/-- The product projection `select: 'name price image description'` used
when populating an order's line items. -/
structure ProductView where
  _id : String
  name : String
  price : JsNum
  image : String
  description : String
  deriving Repr, DecidableEq

/-- The user projection `select: 'firstName lastName email'` used when
populating an order's owner. -/
structure UserView where
  _id : String
  firstName : String
  lastName : String
  email : String
  deriving Repr, DecidableEq

/-- An order with its references expanded by `populate`: each line's
product resolved to its projected document (or `none` for a dangling
reference), the shipping address resolved, and the owning user resolved. -/
structure PopulatedOrder where
  order : OrderDoc
  productDetails : List (Option ProductView)
  addressDetail : Option AddressDoc
  userDetail : UserView
  deriving Repr, DecidableEq

/-- Project a product document for population. -/
def Product.toView (p : Product) : ProductView :=
  { _id := p._id, name := p.name, price := p.price, image := p.image,
    description := p.description }

/-- Project a user document for population. -/
def UserDoc.toView (u : UserDoc) : UserView :=
  { _id := u._id, firstName := u.firstName, lastName := u.lastName, email := u.email }

/-- Populate an order's product and address references against the
current collections (read-time join). -/
def populateRefs (db : DB) (o : OrderDoc) (u : UserView) : PopulatedOrder :=
  { order := o
    productDetails := o.products.map
      (fun l => (db.products.find? (fun p => p._id == l.product)).map Product.toView)
    addressDetail := db.addresses.find? (fun a => a._id == o.shippingAddress)
    userDetail := u }

/-- getOrder (the order controller): `Order.findOne({ orderId: id })`
with population, then a 404 check, then the owner-or-admin check.  The
filter on the non-schema `orderId` path is passed through to the store,
so it matches raw documents carrying that field.  When the order's user
reference is dangling, population leaves `order.user` null and the
ownership check's property access throws; the catch maps this to
status 400 "Invalid order ID". -/
def getOrder (userId role oid : String) (db : DB) : HttpResult PopulatedOrder :=
  match db.orders.find? (fun o => o.orderId == some oid) with
  | none => .err 404 "Order not found"
  | some order =>
    match db.users.find? (fun u => u._id == order.user) with
    | none => .err 400 "Invalid order ID"
    | some u =>
      if order.user != userId && role != "admin" then
        .err 403 "Not authorized to access this order"
      else
        .ok 200 (populateRefs db order u.toView)

/-- updateOrderStatus (the order controller): presence check on
`status`, membership in the status enumeration, then
`Order.findOneAndUpdate({ orderId: id }, { status })` returning the
updated, populated order, or a 404 when no document matches.  The
lookup key is a plain string, so no cast error can arise from the id;
the controller's CastError branch is unreachable here. -/
def updateOrderStatus (oid : String) (status : Option String) (db : DB) :
    HttpResult OrderDoc × DB :=
  if jsFalsy status then
    (.err 400 "Please provide status", db)
  else
    let s := status.getD ""
    if ¬ validStatuses.contains s then
      (.err 400 "Invalid status", db)
    else
      match db.orders.find? (fun o => o.orderId == some oid) with
      | none => (.err 404 "Order not found", db)
      | some order =>
        let updated := { order with status := s }
        (.ok 200 updated,
         { db with orders := (updateFirst (fun o => o.orderId == some oid)
             (fun o => { o with status := s }) db.orders) })

/-- The body of the address create/update endpoints: the nine payload
fields and the `defaultAddress` flag (absent modelled as `false`, which
is how the controller's truthiness test treats it). -/
structure AddrReq where
  fields : AddressFields
  defaultAddress : Bool
  deriving Repr, DecidableEq

/-- Clear the `defaultAddress` flag on every address currently carrying
it: `Address.updateMany({ defaultAddress: true }, { defaultAddress:
false })`.  Note the filter is global — not scoped to any user. -/
def clearAllDefaults (l : List AddressDoc) : List AddressDoc :=
  l.map (fun a => if a.defaultAddress then { a with defaultAddress := false } else a)

/-- Clear the `defaultAddress` flag on every address except the one with
the given id: `Address.updateMany({ defaultAddress: true, _id: { $ne:
id } }, { defaultAddress: false })`.  Again global across users. -/
def clearOtherDefaults (aid : String) (l : List AddressDoc) : List AddressDoc :=
  l.map (fun a => if a.defaultAddress && a._id != aid
                  then { a with defaultAddress := false } else a)

/-- createAddress (the address controller): when the request carries a
truthy `defaultAddress`, first clear the flag everywhere, then create
the new address owned by the requester.  `newId` is the `_id` the store
assigns to the created document. -/
def createAddress (userId newId : String) (req : AddrReq) (db : DB) :
    HttpResult AddressDoc × DB :=
  let db1 := if req.defaultAddress
             then { db with addresses := clearAllDefaults db.addresses }
             else db
  let newAddr : AddressDoc :=
    { _id := newId, user := userId, fields := req.fields,
      defaultAddress := req.defaultAddress }
  (.ok 201 newAddr, { db1 with addresses := db1.addresses ++ [newAddr] })

/-- updateAddress (the address controller): when the request carries a
truthy `defaultAddress`, first clear the flag on every other address
(globally), and only then run
`Address.findOneAndUpdate({ _id: id, user: req.user._id }, {...})`;
a missing or foreign-owned address yields 404 — after the clearing has
already been written. -/
def updateAddress (userId aid : String) (req : AddrReq) (db : DB) :
    HttpResult AddressDoc × DB :=
  let db1 := if req.defaultAddress
             then { db with addresses := clearOtherDefaults aid db.addresses }
             else db
  match db1.addresses.find? (fun a => a._id == aid && a.user == userId) with
  | none => (.err 404 "Address not found", db1)
  | some found =>
    let updated := { found with fields := req.fields, defaultAddress := req.defaultAddress }
    (.ok 200 updated,
     { db1 with addresses := (updateFirst (fun a => a._id == aid && a.user == userId)
         (fun a => { a with fields := req.fields, defaultAddress := req.defaultAddress })
         db1.addresses) })

/-- deleteAddress (the address controller): look the address up by id
(404 when absent), delete it, and if it was the default, promote the
first remaining address (the `findOne()` choice) to default via `save`. -/
def deleteAddress (aid : String) (db : DB) : HttpResult Unit × DB :=
  match db.addresses.find? (fun a => a._id == aid) with
  | none => (.err 404 "Address not found", db)
  | some address =>
    let wasDefault := address.defaultAddress
    let remaining := eraseFirst (fun a => a._id == aid) db.addresses
    if wasDefault then
      match remaining.head? with
      | none => (.ok 200 (), { db with addresses := remaining })
      | some another =>
        (.ok 200 (),
         { db with addresses := (updateFirst (fun a => a._id == another._id)
             (fun a => { a with defaultAddress := true }) remaining) })
    else
      (.ok 200 (), { db with addresses := remaining })

/-- The body of POST /api/products/update/:id, restricted to the fields
the controller reads; `newImage` stands for the Cloudinary URL obtained
from an uploaded file (`req.file`), an external collaborator. -/
structure ProductUpdateReq where
  name : String
  description : String
  price : JsNum
  category : String
  size : Option String
  newImage : Option String
  deriving Repr, DecidableEq

/-- The `findByIdAndUpdate` write step of updateProduct: 404 when the
product does not exist, otherwise overwrite the updatable fields.  Only
the products collection is touched. -/
def updateProductWrite (pid : String) (req : ProductUpdateReq) (db : DB) :
    HttpResult Product × DB :=
  let apply : Product → Product := fun p =>
    { p with name := req.name, description := req.description, price := req.price,
             category := req.category, size := req.size.getD p.size,
             image := req.newImage.getD p.image }
  match db.products.find? (fun p => p._id == pid) with
  | none => (.err 404 "Product not found", db)
  | some p =>
    (.ok 200 (apply p),
     { db with products := (updateFirst (fun q => q._id == pid) apply db.products) })

/-- updateProduct (the product controller): validate the size when a
truthy one is provided, then run the `findByIdAndUpdate` write. -/
def updateProduct (pid : String) (req : ProductUpdateReq) (db : DB) :
    HttpResult Product × DB :=
  match req.size with
  | some s =>
    if s != "" && ¬ ["S", "M", "L", "XL"].contains s then
      (.err 400 "Please add a valid product size (S, M, L, XL)", db)
    else
      updateProductWrite pid req db
  | none => updateProductWrite pid req db

/-! ## Helper lemmas -/

/-- The per-item validation chain as the spec states it: scanning the
line items in input order, the first item whose product does not resolve
yields 404 with a message naming the id, otherwise the first item with
quantity < 1 yields 400; `none` when every item passes. -/
def firstItemError (db : DB) : List OrderItemIn → Option (Nat × String)
  | [] => none
  | item :: rest =>
    match db.products.find? (fun p => p._id == item.product) with
    | none => some (404, "Product with id " ++ item.product ++ " not found")
    | some _ =>
      if item.quantity < 1 then some (400, "Product quantity must be at least 1")
      else firstItemError db rest

theorem validateItems_error_iff (db : DB) (items : List OrderItemIn) (e : Nat × String) :
    validateItems db items = .error e ↔ firstItemError db items = some e := by
  induction items with
  | nil => simp [validateItems, firstItemError]
  | cons item rest ih =>
    unfold validateItems firstItemError
    cases hfind : db.products.find? (fun p => p._id == item.product) with
    | none => simp
    | some product =>
      by_cases hq : item.quantity < 1
      · simp [hq]
      · simp only [if_neg hq]
        cases hv : validateItems db rest with
        | error e2 =>
          simp only [hv] at ih
          simpa using ih
        | ok pr =>
          obtain ⟨lines, total⟩ := pr
          simp only [hv] at ih
          simp at ih
          simpa using ih

theorem validateItems_ok_spec (db : DB) (items : List OrderItemIn) (lines : List OrderLine)
    (total : JsNum) (h : validateItems db items = .ok (lines, total)) :
    (∀ l ∈ lines, ∃ p, db.products.find? (fun q => q._id == l.product) = some p ∧
       l.price = p.price ∧ 1 ≤ l.quantity) ∧
    total = (lines.map (fun l => l.quantity * l.price)).sum := by
  induction items generalizing lines total with
  | nil =>
    unfold validateItems at h
    cases h
    simp
  | cons item rest ih =>
    unfold validateItems at h
    cases hfind : db.products.find? (fun p => p._id == item.product) with
    | none => simp [hfind] at h
    | some product =>
      simp only [hfind] at h
      by_cases hq : item.quantity < 1
      · simp [hq] at h
      · simp only [if_neg hq] at h
        cases hv : validateItems db rest with
        | error e => simp [hv] at h
        | ok pr =>
          obtain ⟨ls, t⟩ := pr
          simp only [hv] at h
          rw [Except.ok.injEq, Prod.mk.injEq] at h
          obtain ⟨hlines, htotal⟩ := h
          subst hlines
          subst htotal
          obtain ⟨ihm, iht⟩ := ih ls t hv
          constructor
          · intro l hl
            rcases List.mem_cons.mp hl with hl | hl
            · subst hl
              exact ⟨product, hfind, rfl, not_lt.mp hq⟩
            · exact ihm l hl
          · simp only [List.map_cons, List.sum_cons]
            rw [iht]
            ring

theorem firstItemError_append_of_none (db : DB) (pre l : List OrderItemIn)
    (h : firstItemError db pre = none) :
    firstItemError db (pre ++ l) = firstItemError db l := by
  induction pre with
  | nil => simp
  | cons item rest ih =>
    simp only [List.cons_append, firstItemError] at h ⊢
    cases hfind : db.products.find? (fun p => p._id == item.product) with
    | none => simp [hfind] at h
    | some product =>
      simp only [hfind] at h ⊢
      by_cases hq : item.quantity < 1
      · simp [hq] at h
      · simp only [if_neg hq] at h ⊢
        exact ih h

theorem isEmpty_false_of_ne_nil {items : List α} (h : items ≠ []) :
    items.isEmpty = false := by
  cases items with
  | nil => exact absurd rfl h
  | cons a l => rfl

theorem mkOrder_id (db : DB) (u : String) (lines : List OrderLine) (t : JsNum)
    (s p : String) : (mkOrder db u lines t s p)._id = db.nextOrderId := rfl

/-! Branch characterisations of addOrder. -/

theorem addOrder_products_missing (req : AddOrderReq) (db : DB) (h : req.products = none) :
    addOrder req db = (.err 400 "Please provide products array", db) := by
  simp [addOrder, h]

theorem addOrder_products_empty (req : AddOrderReq) (db : DB) (h : req.products = some []) :
    addOrder req db = (.err 400 "Please provide products array", db) := by
  simp [addOrder, h, List.isEmpty]

theorem addOrder_address_missing (req : AddOrderReq) (db : DB) (items : List OrderItemIn)
    (hprod : req.products = some items) (hne : items ≠ [])
    (hship : jsFalsy req.shippingAddress = true) :
    addOrder req db = (.err 400 "Please provide shipping address", db) := by
  simp [addOrder, hprod, isEmpty_false_of_ne_nil hne, hship]

theorem addOrder_payment_missing (req : AddOrderReq) (db : DB) (items : List OrderItemIn)
    (hprod : req.products = some items) (hne : items ≠ [])
    (hship : jsFalsy req.shippingAddress = false)
    (hpay : jsFalsy req.paymentMethod = true) :
    addOrder req db = (.err 400 "Please provide payment method", db) := by
  simp [addOrder, hprod, isEmpty_false_of_ne_nil hne, hship, hpay]

theorem addOrder_address_not_found (req : AddOrderReq) (db : DB) (items : List OrderItemIn)
    (hprod : req.products = some items) (hne : items ≠ [])
    (hship : jsFalsy req.shippingAddress = false)
    (hpay : jsFalsy req.paymentMethod = false)
    (haddr : db.addresses.find? (fun a => a._id == req.shippingAddress.getD "") = none) :
    addOrder req db = (.err 404 "Shipping address not found", db) := by
  simp [addOrder, hprod, isEmpty_false_of_ne_nil hne, hship, hpay, haddr]

theorem addOrder_item_error (req : AddOrderReq) (db : DB) (items : List OrderItemIn)
    (addr : AddressDoc) (e : Nat × String)
    (hprod : req.products = some items) (hne : items ≠ [])
    (hship : jsFalsy req.shippingAddress = false)
    (hpay : jsFalsy req.paymentMethod = false)
    (haddr : db.addresses.find? (fun a => a._id == req.shippingAddress.getD "") = some addr)
    (herr : firstItemError db items = some e) :
    addOrder req db = (.err e.1 e.2, db) := by
  have hval : validateItems db items = .error e := (validateItems_error_iff db items e).mpr herr
  simp [addOrder, hprod, isEmpty_false_of_ne_nil hne, hship, hpay, haddr, hval]

theorem addOrder_duplicate_key (req : AddOrderReq) (db : DB) (items : List OrderItemIn)
    (addr : AddressDoc) (lines : List OrderLine) (total : JsNum)
    (hprod : req.products = some items) (hne : items ≠ [])
    (hship : jsFalsy req.shippingAddress = false)
    (hpay : jsFalsy req.paymentMethod = false)
    (haddr : db.addresses.find? (fun a => a._id == req.shippingAddress.getD "") = some addr)
    (hval : validateItems db items = .ok (lines, total))
    (hvalid : orderValidate (mkOrder db req.userId lines total (req.shippingAddress.getD "")
        (jsTrim (req.paymentMethod.getD ""))) = true)
    (hdup : db.orders.any (fun o => o._id == db.nextOrderId) = true) :
    addOrder req db = (.err 400 "Duplicate order creation", db) := by
  simp [addOrder, hprod, isEmpty_false_of_ne_nil hne, hship, hpay, haddr, hval, hvalid, mkOrder_id,
    hdup]

theorem addOrder_ok_inv (req : AddOrderReq) (db db' : DB) (o : OrderDoc)
    (h : addOrder req db = (.ok 201 o, db')) :
    ∃ items lines total, req.products = some items ∧
      validateItems db items = .ok (lines, total) ∧
      o = mkOrder db req.userId lines total (req.shippingAddress.getD "")
            (jsTrim (req.paymentMethod.getD "")) ∧
      orderValidate o = true ∧
      db' = { db with orders := db.orders ++ [o], nextOrderId := db.nextOrderId + 1 } := by
  unfold addOrder at h
  cases hprod : req.products with
  | none => simp [hprod] at h
  | some items =>
    simp only [hprod] at h
    refine ⟨items, ?_⟩
    by_cases hne : items.isEmpty = true
    · simp [hne] at h
    · simp only [if_neg hne] at h
      by_cases hship : jsFalsy req.shippingAddress = true
      · simp [hship] at h
      · simp only [if_neg hship] at h
        by_cases hpay : jsFalsy req.paymentMethod = true
        · simp [hpay] at h
        · simp only [if_neg hpay] at h
          cases haddr : db.addresses.find? (fun a => a._id == req.shippingAddress.getD "") with
          | none => simp [haddr] at h
          | some addr =>
            simp only [haddr] at h
            cases hval : validateItems db items with
            | error e => simp [hval] at h
            | ok pr =>
              obtain ⟨lines, total⟩ := pr
              simp only [hval] at h
              refine ⟨lines, total, rfl, rfl, ?_⟩
              by_cases hvalid : orderValidate (mkOrder db req.userId lines total
                  (req.shippingAddress.getD "") (jsTrim (req.paymentMethod.getD ""))) = true
              · simp only [hvalid, not_true, if_neg, if_false] at h
                by_cases hdup : db.orders.any (fun o => o._id ==
                    (mkOrder db req.userId lines total (req.shippingAddress.getD "")
                      (jsTrim (req.paymentMethod.getD "")))._id) = true
                · simp [hdup] at h
                · simp only [if_neg hdup] at h
                  rw [Prod.mk.injEq, HttpResult.ok.injEq] at h
                  obtain ⟨⟨-, h1⟩, h2⟩ := h
                  subst h1
                  exact ⟨rfl, hvalid, h2.symm⟩
              · simp [hvalid] at h

theorem addOrder_state (req : AddOrderReq) (db : DB) :
    (addOrder req db).2 = db ∨
    ∃ o, addOrder req db =
      (.ok 201 o, { db with orders := db.orders ++ [o], nextOrderId := db.nextOrderId + 1 }) := by
  unfold addOrder
  split
  · exact Or.inl rfl
  split
  · exact Or.inl rfl
  split
  · exact Or.inl rfl
  split
  · exact Or.inl rfl
  split
  · exact Or.inl rfl
  split
  · exact Or.inl rfl
  dsimp only
  split
  · exact Or.inl rfl
  split
  · exact Or.inl rfl
  exact Or.inr ⟨_, rfl⟩

theorem updateProduct_orders (pid : String) (req : ProductUpdateReq) (db : DB) :
    ((updateProduct pid req db).2).orders = db.orders := by
  unfold updateProduct updateProductWrite
  split
  · split
    · rfl
    · split <;> rfl
  · split <;> rfl

/-! ## Concrete fixtures used by witnesses and counterexamples -/

/-- A fully populated address payload. -/
def sampleFields : AddressFields :=
  { countryRegion := "India", firstName := "Asha", lastName := "Rao", address := "12 MG Road",
    apartmentSuite := "", city := "Pune", state := "MH", pinCode := "411001",
    phone := "9999999999" }

/-- Catalog product `p1`, price 10. -/
def prodA : Product :=
  { _id := "p1", name := "Tee", description := "cotton tee", price := 10, size := "M",
    image := "img1", category := "T-Shirts", isExplore := false }

/-- Catalog product `p2`, price 5. -/
def prodB : Product :=
  { _id := "p2", name := "Jogger", description := "jogger", price := 5, size := "L",
    image := "img2", category := "Joggers", isExplore := false }

/-- Catalog product `YZ7`, price 4; its id shares no substring with the
fixed quantity error message. -/
def prodY : Product :=
  { _id := "YZ7", name := "Shorts", description := "shorts", price := 4, size := "S",
    image := "img3", category := "Shorts", isExplore := false }

/-- Address `a1` owned by `u1`, currently the default. -/
def addrA : AddressDoc :=
  { _id := "a1", user := "u1", fields := sampleFields, defaultAddress := true }

/-- Address `b2` owned by `u2`, not default. -/
def addrB : AddressDoc :=
  { _id := "b2", user := "u2", fields := sampleFields, defaultAddress := false }

/-- Regular user `u1`. -/
def userA : UserDoc :=
  { _id := "u1", firstName := "Asha", lastName := "Rao", email := "asha@example.com",
    role := "user" }

/-- Regular user `u2`. -/
def userB : UserDoc :=
  { _id := "u2", firstName := "Bela", lastName := "Sen", email := "bela@example.com",
    role := "user" }

/-- Administrator `u3`. -/
def adminC : UserDoc :=
  { _id := "u3", firstName := "Chandra", lastName := "Iyer", email := "admin@example.com",
    role := "admin" }

/-- Base store: three products, two addresses, three users, no orders. -/
def baseDb : DB :=
  { products := [prodA, prodB, prodY], addresses := [addrA, addrB], orders := [],
    users := [userA, userB, adminC], nextOrderId := 0 }

/-- A well-formed order request: 2 × p1 (catalog price 10, client price 1
is supplied and must be ignored) and 1 × p2 (catalog price 5). -/
def okReq : AddOrderReq :=
  { userId := "u1"
    products := some [{ product := "p1", quantity := 2, clientPrice := some 1 },
                      { product := "p2", quantity := 1, clientPrice := none }]
    shippingAddress := some "a1"
    paymentMethod := some " credit_card " }

/-- The order document `addOrder okReq baseDb` persists. -/
def okOrder : OrderDoc :=
  { _id := 0, orderId := none, user := "u1",
    products := [{ product := "p1", quantity := 2, price := 10 },
                 { product := "p2", quantity := 1, price := 5 }],
    totalAmount := 25, status := "pending", shippingAddress := "a1",
    paymentMethod := "credit_card", paymentStatus := "pending" }

/-- The store after `addOrder okReq baseDb`. -/
def okDb : DB := { baseDb with orders := [okOrder], nextOrderId := 1 }

/-- A product update that changes p1's catalog price to 99. -/
def priceBump : ProductUpdateReq :=
  { name := "Tee", description := "cotton tee", price := 99, category := "T-Shirts",
    size := some "M", newImage := none }

/-- An order request for a fractional quantity of p1. -/
def fracReq : AddOrderReq :=
  { userId := "u1", products := some [{ product := "p1", quantity := 3/2, clientPrice := none }],
    shippingAddress := some "a1", paymentMethod := some "paypal" }

/-- The order that `addOrder fracReq baseDb` persists: quantity 3/2. -/
def fracOrder : OrderDoc :=
  { _id := 0, orderId := none, user := "u1",
    products := [{ product := "p1", quantity := 3/2, price := 10 }],
    totalAmount := 15, status := "pending", shippingAddress := "a1",
    paymentMethod := "paypal", paymentStatus := "pending" }

/-- Evaluation of the sample request: the catalog prices 10 and 5 are
captured, the total is 2 × 10 + 1 × 5 = 25, and the payment method is
stored trimmed. -/
theorem addOrder_okReq_eval : addOrder okReq baseDb = (.ok 201 okOrder, okDb) := by
  simp only [addOrder, okReq, baseDb, validateItems, mkOrder, orderValidate, jsFalsy, jsTrim,
    validStatuses, paymentMethods, paymentStatuses, prodA, prodB, prodY, addrA, addrB,
    okOrder, okDb, sampleFields, List.find?, List.isEmpty, List.any, List.all, List.contains,
    String.reduceEq, String.reduceBEq, Char.reduceIsWhitespace, Option.getD, List.dropWhile,
    List.reverse, List.reverseAux, String.reduceMk]
  norm_num

/-- Evaluation of the fractional-quantity request: quantity 3/2 passes
every check and is stored verbatim. -/
theorem addOrder_fracReq_eval : addOrder fracReq baseDb =
    (.ok 201 fracOrder, { baseDb with orders := [fracOrder], nextOrderId := 1 }) := by
  simp only [addOrder, fracReq, baseDb, validateItems, mkOrder, orderValidate, jsFalsy, jsTrim,
    validStatuses, paymentMethods, paymentStatuses, prodA, prodB, prodY, addrA, addrB,
    fracOrder, sampleFields, List.find?, List.isEmpty, List.any, List.all, List.contains,
    String.reduceEq, String.reduceBEq, Char.reduceIsWhitespace, Option.getD, List.dropWhile,
    List.reverse, List.reverseAux, String.reduceMk]
  norm_num

/-! ## Claim theorems -/

/-- Claim C1: on every successful order creation, each stored line's unit
price equals the catalog price of the referenced product at creation time
(the client-supplied price plays no role), the persisted totalAmount is
the sum over the lines of quantity × captured price, and a later catalog
price update (updateProduct) leaves the stored orders untouched. -/
theorem addOrder_captures_catalog_prices (req : AddOrderReq) (db db' : DB) (o : OrderDoc)
    (h : addOrder req db = (.ok 201 o, db')) :
    (∀ l ∈ o.products, ∃ p, db.products.find? (fun q => q._id == l.product) = some p ∧
        l.price = p.price) ∧
    o.totalAmount = (o.products.map (fun l => l.quantity * l.price)).sum ∧
    (∀ pid upd, ((updateProduct pid upd db').2).orders = db'.orders) := by
  obtain ⟨items, lines, total, hprod, hval, ho, hvalid, hdb⟩ := addOrder_ok_inv req db db' o h
  obtain ⟨hm, ht⟩ := validateItems_ok_spec db items lines total hval
  subst ho
  refine ⟨?_, ?_, ?_⟩
  · intro l hl
    simp only [mkOrder] at hl
    obtain ⟨p, hp, hprice, -⟩ := hm l hl
    exact ⟨p, hp, hprice⟩
  · simpa [mkOrder] using ht
  · intro pid upd
    exact updateProduct_orders pid upd _

theorem addOrder_captures_catalog_prices_witness :
    okOrder.totalAmount = (okOrder.products.map (fun l => l.quantity * l.price)).sum ∧
    ((updateProduct "p1" priceBump okDb).2).orders = okDb.orders :=
  ⟨(addOrder_captures_catalog_prices okReq baseDb okDb okOrder addOrder_okReq_eval).2.1,
   (addOrder_captures_catalog_prices okReq baseDb okDb okOrder addOrder_okReq_eval).2.2
     "p1" priceBump⟩

/-- Claim C2 (code-bug exhibit): the controller generates an orderId, but
the order schema declares no such path, so the created document stores
none of it; consequently, in a store whose orders were all created by
this application, the orderId-based single-order lookup finds nothing,
whatever id is asked for. -/
theorem orderId_never_persisted (req : AddOrderReq) (db db' : DB) (o : OrderDoc)
    (hraw : ∀ od ∈ db.orders, od.orderId = none)
    (h : addOrder req db = (.ok 201 o, db')) :
    o.orderId = none ∧
    ∀ uid role s, getOrder uid role s db' = .err 404 "Order not found" := by
  obtain ⟨items, lines, total, hprod, hval, ho, hvalid, hdb⟩ := addOrder_ok_inv req db db' o h
  have hoid : o.orderId = none := by rw [ho]; rfl
  refine ⟨hoid, ?_⟩
  intro uid role s
  have hall : ∀ od ∈ db'.orders, od.orderId = none := by
    rw [hdb]
    intro od hod
    rcases List.mem_append.mp hod with hmem | hmem
    · exact hraw od hmem
    · rw [List.mem_singleton.mp hmem]
      exact hoid
  have hfind : db'.orders.find? (fun od => od.orderId == some s) = none := by
    rw [List.find?_eq_none]
    intro od hod
    simp [hall od hod]
  simp [getOrder, hfind]

theorem orderId_never_persisted_witness :
    okOrder.orderId = none ∧
    getOrder "u1" "user" "any-id" okDb = .err 404 "Order not found" :=
  ⟨(orderId_never_persisted okReq baseDb okDb okOrder (by simp [baseDb]) addOrder_okReq_eval).1,
   (orderId_never_persisted okReq baseDb okDb okOrder (by simp [baseDb]) addOrder_okReq_eval).2
     "u1" "user" "any-id"⟩

/-- Claim C8: whenever order creation fails — any validation failure or
any store error — the database is left exactly as it was. -/
theorem addOrder_error_leaves_state_unchanged (req : AddOrderReq) (db : DB) (c : Nat) (m : String)
    (h : (addOrder req db).1 = .err c m) : (addOrder req db).2 = db := by
  rcases addOrder_state req db with hs | ⟨o, hs⟩
  · exact hs
  · simp [hs] at h

theorem addOrder_error_leaves_state_unchanged_witness :
    (addOrder { userId := "u1", products := none, shippingAddress := some "a1",
                paymentMethod := some "paypal" } baseDb).2 = baseDb :=
  addOrder_error_leaves_state_unchanged _ baseDb 400 "Please provide products array" (by decide)

/-- Claim C9 (amended): every line of a successfully created order has
quantity ≥ 1 and captured price ≥ 0; integrality of the quantity is not
enforced (see the counterexample). -/
theorem addOrder_line_bounds (req : AddOrderReq) (db db' : DB) (o : OrderDoc)
    (h : addOrder req db = (.ok 201 o, db')) :
    ∀ l ∈ o.products, 1 ≤ l.quantity ∧ 0 ≤ l.price := by
  obtain ⟨items, lines, total, hprod, hval, ho, hvalid, hdb⟩ := addOrder_ok_inv req db db' o h
  intro l hl
  obtain ⟨hm, -⟩ := validateItems_ok_spec db items lines total hval
  have hl' : l ∈ lines := by
    rw [ho] at hl
    simpa [mkOrder] using hl
  obtain ⟨p, -, -, hq⟩ := hm l hl'
  refine ⟨hq, ?_⟩
  unfold orderValidate at hvalid
  simp only [Bool.and_eq_true, List.all_eq_true] at hvalid
  have hline := hvalid.1.1.1.1 l (by rw [ho]; simpa [mkOrder] using hl')
  simp only [decide_eq_true_eq] at hline
  exact hline.2

theorem addOrder_line_bounds_witness :
    1 ≤ ({ product := "p1", quantity := 2, price := 10 } : OrderLine).quantity ∧
    0 ≤ ({ product := "p1", quantity := 2, price := 10 } : OrderLine).price :=
  addOrder_line_bounds okReq baseDb okDb okOrder addOrder_okReq_eval _
    (by simp [okOrder])

/-- Claim C9 counterexample: an order with the fractional quantity 3/2
for p1 is created successfully, and the stored quantity 3/2 is not an
integer (its reduced denominator is 2). -/
theorem addOrder_accepts_fractional_quantity :
    addOrder fracReq baseDb =
      (.ok 201 fracOrder, { baseDb with orders := [fracOrder], nextOrderId := 1 }) ∧
    fracOrder.products.map OrderLine.quantity = [3/2] ∧
    ((3 : ℚ)/2).den ≠ 1 :=
  ⟨addOrder_fracReq_eval, by simp [fracOrder], by norm_num⟩

/-- Claim C3: order creation validates fail-fast, first violation wins,
in this order — products missing/non-array/empty → 400; shipping address
missing → 400; payment method missing → 400; address unknown → 404; then
per line item in input order, an unknown product → 404 with a message
naming the id, then quantity < 1 → 400, short-circuiting on the first
failing item; and a duplicate-key conflict at the insert → 400.  The
final conjunct records that the unknown-product message always contains
the offending id. -/
theorem addOrder_validation_failfast (req : AddOrderReq) (db : DB) (items : List OrderItemIn)
    (addr : AddressDoc) (e : Nat × String) (lines : List OrderLine) (total : JsNum) :
    (req.products = none → addOrder req db = (.err 400 "Please provide products array", db)) ∧
    (req.products = some [] → addOrder req db = (.err 400 "Please provide products array", db)) ∧
    (req.products = some items → items ≠ [] → jsFalsy req.shippingAddress = true →
      addOrder req db = (.err 400 "Please provide shipping address", db)) ∧
    (req.products = some items → items ≠ [] → jsFalsy req.shippingAddress = false →
      jsFalsy req.paymentMethod = true →
      addOrder req db = (.err 400 "Please provide payment method", db)) ∧
    (req.products = some items → items ≠ [] → jsFalsy req.shippingAddress = false →
      jsFalsy req.paymentMethod = false →
      db.addresses.find? (fun a => a._id == req.shippingAddress.getD "") = none →
      addOrder req db = (.err 404 "Shipping address not found", db)) ∧
    (req.products = some items → items ≠ [] → jsFalsy req.shippingAddress = false →
      jsFalsy req.paymentMethod = false →
      db.addresses.find? (fun a => a._id == req.shippingAddress.getD "") = some addr →
      firstItemError db items = some e →
      addOrder req db = (.err e.1 e.2, db)) ∧
    (req.products = some items → items ≠ [] → jsFalsy req.shippingAddress = false →
      jsFalsy req.paymentMethod = false →
      db.addresses.find? (fun a => a._id == req.shippingAddress.getD "") = some addr →
      validateItems db items = .ok (lines, total) →
      orderValidate (mkOrder db req.userId lines total (req.shippingAddress.getD "")
        (jsTrim (req.paymentMethod.getD ""))) = true →
      db.orders.any (fun o => o._id == db.nextOrderId) = true →
      addOrder req db = (.err 400 "Duplicate order creation", db)) ∧
    (∀ x : String,
      List.IsInfix x.toList ("Product with id " ++ x ++ " not found").toList) := by
  refine ⟨?_, ?_, ?_, ?_, ?_, ?_, ?_, ?_⟩
  · intro h; exact addOrder_products_missing req db h
  · intro h; exact addOrder_products_empty req db h
  · intro h1 h2 h3; exact addOrder_address_missing req db items h1 h2 h3
  · intro h1 h2 h3 h4; exact addOrder_payment_missing req db items h1 h2 h3 h4
  · intro h1 h2 h3 h4 h5; exact addOrder_address_not_found req db items h1 h2 h3 h4 h5
  · intro h1 h2 h3 h4 h5 h6; exact addOrder_item_error req db items addr e h1 h2 h3 h4 h5 h6
  · intro h1 h2 h3 h4 h5 h6 h7 h8
    exact addOrder_duplicate_key req db items addr lines total h1 h2 h3 h4 h5 h6 h7 h8
  · intro x
    refine ⟨"Product with id ".toList, " not found".toList, ?_⟩
    simp [String.toList]

/-- A request whose shipping address is absent. -/
def reqNoShip : AddOrderReq :=
  { userId := "u1", products := some [{ product := "p1", quantity := 1, clientPrice := none }],
    shippingAddress := none, paymentMethod := some "paypal" }

/-- A request whose payment method is the empty (falsy) string. -/
def reqNoPay : AddOrderReq :=
  { userId := "u1", products := some [{ product := "p1", quantity := 1, clientPrice := none }],
    shippingAddress := some "a1", paymentMethod := some "" }

/-- A request whose shipping address id matches no stored address. -/
def reqBadAddr : AddOrderReq :=
  { userId := "u1", products := some [{ product := "p1", quantity := 1, clientPrice := none }],
    shippingAddress := some "zz", paymentMethod := some "paypal" }

/-- A request referencing the unknown product id "nope". -/
def reqBadProd : AddOrderReq :=
  { userId := "u1", products := some [{ product := "nope", quantity := 1, clientPrice := none }],
    shippingAddress := some "a1", paymentMethod := some "paypal" }

/-- A single-line request for one p1 (no client price). -/
def reqOneLine : AddOrderReq :=
  { userId := "u1", products := some [{ product := "p1", quantity := 1, clientPrice := none }],
    shippingAddress := some "a1", paymentMethod := some "paypal" }

/-- A store in which the next order `_id` is already taken, so the
insert raises the duplicate-key error. -/
def dupDb : DB := { baseDb with orders := [okOrder], nextOrderId := 0 }

/-- Evaluation of okReq's two lines against the duplicate-key store:
catalog prices 10 and 5 are captured, total 25. -/
theorem validateItems_okReq_dupDb_eval :
    validateItems dupDb [{ product := "p1", quantity := 2, clientPrice := some 1 },
                         { product := "p2", quantity := 1, clientPrice := none }] =
      .ok ([{ product := "p1", quantity := 2, price := 10 },
            { product := "p2", quantity := 1, price := 5 }], 25) := by
  simp only [validateItems, dupDb, baseDb, prodA, prodB, prodY, List.find?, String.reduceBEq]
  norm_num

theorem addOrder_validation_failfast_witness :
    addOrder { userId := "u1", products := none, shippingAddress := some "a1",
               paymentMethod := some "paypal" } baseDb =
      (.err 400 "Please provide products array", baseDb) ∧
    addOrder { userId := "u1", products := some [], shippingAddress := some "a1",
               paymentMethod := some "paypal" } baseDb =
      (.err 400 "Please provide products array", baseDb) ∧
    addOrder reqNoShip baseDb = (.err 400 "Please provide shipping address", baseDb) ∧
    addOrder reqNoPay baseDb = (.err 400 "Please provide payment method", baseDb) ∧
    addOrder reqBadAddr baseDb = (.err 404 "Shipping address not found", baseDb) ∧
    addOrder reqBadProd baseDb = (.err 404 "Product with id nope not found", baseDb) ∧
    addOrder okReq dupDb = (.err 400 "Duplicate order creation", dupDb) ∧
    List.IsInfix "nope".toList ("Product with id " ++ "nope" ++ " not found").toList := by
  refine ⟨?_, ?_, ?_, ?_, ?_, ?_, ?_, ?_⟩
  · exact (addOrder_validation_failfast _ baseDb [] addrA (0, "") [] 0).1 rfl
  · exact (addOrder_validation_failfast _ baseDb [] addrA (0, "") [] 0).2.1 rfl
  · exact (addOrder_validation_failfast reqNoShip baseDb
      [{ product := "p1", quantity := 1, clientPrice := none }] addrA (0, "") [] 0).2.2.1
      rfl (by decide) (by decide)
  · exact (addOrder_validation_failfast reqNoPay baseDb
      [{ product := "p1", quantity := 1, clientPrice := none }] addrA (0, "") [] 0).2.2.2.1
      rfl (by decide) (by decide) (by decide)
  · exact (addOrder_validation_failfast reqBadAddr baseDb
      [{ product := "p1", quantity := 1, clientPrice := none }] addrA (0, "") [] 0).2.2.2.2.1
      rfl (by decide) (by decide) (by decide) (by decide)
  · exact (addOrder_validation_failfast reqBadProd baseDb
      [{ product := "nope", quantity := 1, clientPrice := none }] addrA
      (404, "Product with id nope not found") [] 0).2.2.2.2.2.1
      rfl (by decide) (by decide) (by decide) (by decide) (by decide)
  · exact (addOrder_validation_failfast okReq dupDb
      [{ product := "p1", quantity := 2, clientPrice := some 1 },
       { product := "p2", quantity := 1, clientPrice := none }] addrA (0, "")
      [{ product := "p1", quantity := 2, price := 10 },
       { product := "p2", quantity := 1, price := 5 }] 25).2.2.2.2.2.2.1
      rfl (by decide) (by decide) (by decide) (by decide) validateItems_okReq_dupDb_eval
      (by decide) (by decide)
  · exact (addOrder_validation_failfast okReq baseDb [] addrA (0, "") [] 0).2.2.2.2.2.2.2 "nope"

/-- Claim C4 counterexample: creating an order whose line references the
existing product YZ7 with quantity 0 fails with 400, but the error
message is the fixed string "Product quantity must be at least 1", which
does not contain the product id YZ7. -/
theorem quantity_error_message_omits_id :
    (addOrder { userId := "u1",
                products := some [{ product := "YZ7", quantity := 0, clientPrice := none }],
                shippingAddress := some "a1", paymentMethod := some "paypal" } baseDb).1 =
      .err 400 "Product quantity must be at least 1" ∧
    ¬ List.IsInfix "YZ7".toList "Product quantity must be at least 1".toList :=
  ⟨by decide, by decide⟩

/-- Claim C4 (amended): a line item whose referenced product exists but
whose quantity is 0 or negative fails with status 400 and the fixed
message "Product quantity must be at least 1"; the offending product id
appears only in the server log, never in the error message. -/
theorem quantity_below_one_rejects_with_fixed_message (req : AddOrderReq) (db : DB)
    (pre rest : List OrderItemIn) (item : OrderItemIn) (addr : AddressDoc) (prod : Product)
    (hprod : req.products = some (pre ++ item :: rest))
    (hship : jsFalsy req.shippingAddress = false)
    (hpay : jsFalsy req.paymentMethod = false)
    (haddr : db.addresses.find? (fun a => a._id == req.shippingAddress.getD "") = some addr)
    (hpre : firstItemError db pre = none)
    (hfound : db.products.find? (fun p => p._id == item.product) = some prod)
    (hq : item.quantity < 1) :
    addOrder req db = (.err 400 "Product quantity must be at least 1", db) := by
  have hitems : firstItemError db (pre ++ item :: rest) =
      some (400, "Product quantity must be at least 1") := by
    rw [firstItemError_append_of_none db pre _ hpre]
    unfold firstItemError
    simp [hfound, hq]
  exact addOrder_item_error req db _ addr _ hprod (by simp) hship hpay haddr hitems

theorem quantity_below_one_rejects_with_fixed_message_witness :
    addOrder { userId := "u1",
               products := some [{ product := "YZ7", quantity := 0, clientPrice := none }],
               shippingAddress := some "a1", paymentMethod := some "paypal" } baseDb =
      (.err 400 "Product quantity must be at least 1", baseDb) :=
  quantity_below_one_rejects_with_fixed_message _ baseDb [] []
    { product := "YZ7", quantity := 0, clientPrice := none } addrA prodY
    rfl (by decide) (by decide) (by decide) (by decide) (by decide) (by decide)

/-- The HTTP status code carried by a result. -/
def HttpResult.statusCode : HttpResult α → Nat
  | .ok c _ => c
  | .err c _ => c

/-- Whether the result is an error. -/
def HttpResult.isErr : HttpResult α → Bool
  | .ok _ _ => false
  | .err _ _ => true

/-- A raw order document carrying an `orderId` field, as a pre-existing
store document may (MongoDB is schemaless; only app-created documents
are shaped by the orderSchema). -/
def rawOrder : OrderDoc :=
  { _id := 7, orderId := some "ord-1", user := "u1",
    products := [{ product := "p1", quantity := 1, price := 10 }],
    totalAmount := 10, status := "pending", shippingAddress := "a1",
    paymentMethod := "credit_card", paymentStatus := "pending" }

/-- The base store extended with the raw order. -/
def rawDb : DB := { baseDb with orders := [rawOrder], nextOrderId := 8 }

/-- Claim C6: for single-order retrieval of an existing order, an
authenticated requester who neither owns the order nor holds the
administrative role receives 403; a well-formed but unknown order id
yields 404; and an owner or an admin receives the order with its
product, address and user references expanded. -/
theorem getOrder_authorization (uid role oid : String) (db : DB) (ord : OrderDoc) (u : UserDoc) :
    (db.orders.find? (fun o => o.orderId == some oid) = none →
      getOrder uid role oid db = .err 404 "Order not found") ∧
    (db.orders.find? (fun o => o.orderId == some oid) = some ord →
      db.users.find? (fun w => w._id == ord.user) = some u →
      ord.user ≠ uid → role ≠ "admin" →
      getOrder uid role oid db = .err 403 "Not authorized to access this order") ∧
    (db.orders.find? (fun o => o.orderId == some oid) = some ord →
      db.users.find? (fun w => w._id == ord.user) = some u →
      (ord.user = uid ∨ role = "admin") →
      getOrder uid role oid db = .ok 200 (populateRefs db ord u.toView)) := by
  refine ⟨?_, ?_, ?_⟩
  · intro h
    simp [getOrder, h]
  · intro h1 h2 h3 h4
    simp [getOrder, h1, h2, h3, h4]
  · intro h1 h2 h3
    rcases h3 with h3 | h3
    · rw [h3] at h2
      simp [getOrder, h1, h2, h3]
    · simp [getOrder, h1, h2, h3]

theorem getOrder_authorization_witness :
    getOrder "u2" "user" "missing" rawDb = .err 404 "Order not found" ∧
    getOrder "u2" "user" "ord-1" rawDb = .err 403 "Not authorized to access this order" ∧
    getOrder "u1" "user" "ord-1" rawDb = .ok 200 (populateRefs rawDb rawOrder userA.toView) ∧
    getOrder "u3" "admin" "ord-1" rawDb = .ok 200 (populateRefs rawDb rawOrder userA.toView) :=
  ⟨(getOrder_authorization "u2" "user" "missing" rawDb rawOrder userA).1 (by decide),
   (getOrder_authorization "u2" "user" "ord-1" rawDb rawOrder userA).2.1
     (by decide) (by decide) (by decide) (by decide),
   (getOrder_authorization "u1" "user" "ord-1" rawDb rawOrder userA).2.2
     (by decide) (by decide) (Or.inl rfl),
   (getOrder_authorization "u3" "admin" "ord-1" rawDb rawOrder userA).2.2
     (by decide) (by decide) (Or.inr rfl)⟩

/-- Claim C7 counterexample: a malformed order id is answered with 404
"Order not found", not 400 — the lookup key is a plain string, so the
controller's CastError branch cannot fire. -/
theorem updateOrderStatus_malformed_id_yields_404 :
    updateOrderStatus "###not-an-object-id" (some "pending") rawDb =
      (.err 404 "Order not found", rawDb) ∧
    (HttpResult.err 404 "Order not found" : HttpResult OrderDoc) ≠
      .err 400 "Invalid order ID" :=
  ⟨by decide, by decide⟩

/-- Claim C7 (amended): updateOrderStatus answers any status outside the
enumeration with a 400 error; an order id matching no stored document —
malformed ids included, since the string-valued lookup raises no cast
error — yields 404 with no state change; and every status of the
enumeration is accepted whatever the order's current status (no
transition graph). -/
theorem updateOrderStatus_behaviour (oid : String) (s : String) (db : DB) (ord : OrderDoc) :
    (validStatuses.contains s = false →
      ((updateOrderStatus oid (some s) db).1).statusCode = 400 ∧
      ((updateOrderStatus oid (some s) db).1).isErr = true) ∧
    (validStatuses.contains s = true →
      db.orders.find? (fun o => o.orderId == some oid) = none →
      updateOrderStatus oid (some s) db = (.err 404 "Order not found", db)) ∧
    (validStatuses.contains s = true →
      db.orders.find? (fun o => o.orderId == some oid) = some ord →
      (updateOrderStatus oid (some s) db).1 = .ok 200 { ord with status := s } ∧
      (updateOrderStatus oid (some s) db).2 =
        { db with orders := (updateFirst (fun o => o.orderId == some oid)
            (fun o => { o with status := s }) db.orders) }) := by
  have hems : validStatuses.contains "" = false := by decide
  refine ⟨?_, ?_, ?_⟩
  · intro hs
    have hs' : s ∉ validStatuses := by simpa using hs
    by_cases hempty : s = ""
    · simp [updateOrderStatus, jsFalsy, hempty, HttpResult.statusCode, HttpResult.isErr]
    · simp [updateOrderStatus, jsFalsy, hempty, hs', HttpResult.statusCode, HttpResult.isErr]
  · intro hs hfind
    have hs' : s ∈ validStatuses := by simpa using hs
    have hempty : s ≠ "" := by
      rintro rfl
      rw [hems] at hs
      cases hs
    simp [updateOrderStatus, jsFalsy, hempty, hs', hfind]
  · intro hs hfind
    have hs' : s ∈ validStatuses := by simpa using hs
    have hempty : s ≠ "" := by
      rintro rfl
      rw [hems] at hs
      cases hs
    simp [updateOrderStatus, jsFalsy, hempty, hs', hfind]

theorem updateOrderStatus_behaviour_witness :
    ((updateOrderStatus "ord-1" (some "bogus") rawDb).1).statusCode = 400 ∧
    ((updateOrderStatus "ord-1" (some "bogus") rawDb).1).isErr = true ∧
    updateOrderStatus "missing" (some "shipped") rawDb = (.err 404 "Order not found", rawDb) ∧
    (updateOrderStatus "ord-1" (some "delivered") rawDb).1 =
      .ok 200 { rawOrder with status := "delivered" } :=
  ⟨((updateOrderStatus_behaviour "ord-1" "bogus" rawDb rawOrder).1 (by decide)).1,
   ((updateOrderStatus_behaviour "ord-1" "bogus" rawDb rawOrder).1 (by decide)).2,
   (updateOrderStatus_behaviour "missing" "shipped" rawDb rawOrder).2.1 (by decide) (by decide),
   ((updateOrderStatus_behaviour "ord-1" "delivered" rawDb rawOrder).2.2
     (by decide) (by decide)).1⟩

/-! Address default-flag lemmas. -/

theorem clearAllDefaults_no_default (l : List AddressDoc) :
    ∀ a ∈ clearAllDefaults l, a.defaultAddress = false := by
  intro a ha
  simp only [clearAllDefaults, List.mem_map] at ha
  obtain ⟨b, -, rfl⟩ := ha
  cases hb : b.defaultAddress <;> simp [hb]

theorem clearOtherDefaults_default_id (aid : String) (l : List AddressDoc) :
    ∀ a ∈ clearOtherDefaults aid l, a.defaultAddress = true → a._id = aid := by
  intro a ha hdef
  simp only [clearOtherDefaults, List.mem_map] at ha
  obtain ⟨b, -, rfl⟩ := ha
  by_cases hcond : (b.defaultAddress && b._id != aid) = true
  · rw [if_pos hcond] at hdef
    cases hdef
  · rw [if_neg hcond] at hdef ⊢
    simp only [Bool.and_eq_true, bne_iff_ne, ne_eq] at hcond
    exact not_not.mp (not_and.mp hcond hdef)

theorem clearOtherDefaults_map_id (aid : String) (l : List AddressDoc) :
    (clearOtherDefaults aid l).map (fun a => a._id) = l.map (fun a => a._id) := by
  simp only [clearOtherDefaults, List.map_map]
  apply List.map_congr_left
  intro a ha
  simp only [Function.comp_apply]
  split <;> rfl

theorem createAddress_filter (uid nid : String) (req : AddrReq) (db : DB)
    (hdef : req.defaultAddress = true) :
    ((createAddress uid nid req db).2).addresses.filter (fun a => a.defaultAddress) =
      [{ _id := nid, user := uid, fields := req.fields, defaultAddress := true }] := by
  simp only [createAddress, hdef, if_true]
  rw [List.filter_append]
  have h1 : (clearAllDefaults db.addresses).filter (fun a => a.defaultAddress) = [] := by
    rw [List.filter_eq_nil_iff]
    intro a ha
    simp [clearAllDefaults_no_default db.addresses a ha]
  rw [h1]
  simp [hdef]

theorem updateFirst_filter_default (p : AddressDoc → Bool) (f : AddressDoc → AddressDoc)
    (aid : String) (l : List AddressDoc) (found : AddressDoc)
    (hp : ∀ a, p a = true → a._id = aid)
    (hffound : (f found).defaultAddress = true)
    (hnodup : (l.map (fun a => a._id)).Nodup)
    (hdefid : ∀ a ∈ l, a.defaultAddress = true → a._id = aid)
    (hfind : l.find? p = some found) :
    (updateFirst p f l).filter (fun a => a.defaultAddress) = [f found] := by
  induction l with
  | nil => cases hfind
  | cons x xs ih =>
    rw [List.map_cons, List.nodup_cons] at hnodup
    obtain ⟨hxnot, hnodup'⟩ := hnodup
    by_cases hpx : p x = true
    · rw [List.find?_cons_of_pos _ hpx] at hfind
      injection hfind with hfound
      subst hfound
      simp only [updateFirst, if_pos hpx, List.filter_cons, hffound, if_true]
      have hxs : xs.filter (fun a => a.defaultAddress) = [] := by
        rw [List.filter_eq_nil_iff]
        intro b hb hbdef
        have hbid : b._id = aid :=
          hdefid b (List.mem_cons_of_mem x hb) (by simpa using hbdef)
        have hxid : x._id = aid := hp x hpx
        exact hxnot (by rw [hxid, ← hbid]; exact List.mem_map_of_mem _ hb)
      rw [hxs]
    · rw [List.find?_cons_of_neg _ hpx] at hfind
      have hfp : p found = true := List.find?_some hfind
      have hfmem : found ∈ xs := List.mem_of_find?_eq_some hfind
      have hxdef : x.defaultAddress = false := by
        by_contra hxd
        have hxd' : x.defaultAddress = true := by
          cases h : x.defaultAddress
          · exact absurd h hxd
          · rfl
        have hxid : x._id = aid := hdefid x (List.mem_cons_self x xs) hxd'
        have hfid : found._id = aid := hp found hfp
        exact hxnot (by rw [hxid, ← hfid]; exact List.mem_map_of_mem _ hfmem)
      simp only [updateFirst, if_neg hpx, List.filter_cons, hxdef]
      simp only [Bool.false_eq_true, if_false]
      exact ih hnodup' (fun a ha => hdefid a (List.mem_cons_of_mem x ha)) hfind

theorem updateAddress_ok_filter (uid aid : String) (req : AddrReq) (db : DB) (upd : AddressDoc)
    (hnodup : (db.addresses.map (fun a => a._id)).Nodup)
    (hdef : req.defaultAddress = true)
    (hok : (updateAddress uid aid req db).1 = .ok 200 upd) :
    ((updateAddress uid aid req db).2).addresses.filter (fun a => a.defaultAddress) = [upd] ∧
    upd._id = aid := by
  simp only [updateAddress, hdef, if_true] at hok ⊢
  cases hfind : (clearOtherDefaults aid db.addresses).find?
      (fun a => a._id == aid && a.user == uid) with
  | none => simp [hfind] at hok
  | some found =>
    simp only [hfind] at hok ⊢
    rw [HttpResult.ok.injEq] at hok
    obtain ⟨-, hupd⟩ := hok
    have hfp := List.find?_some hfind
    simp only [Bool.and_eq_true, beq_iff_eq] at hfp
    have hfoundid : found._id = aid := hfp.1
    have hfilter := updateFirst_filter_default
      (fun a => a._id == aid && a.user == uid)
      (fun a => { a with fields := req.fields, defaultAddress := req.defaultAddress })
      aid (clearOtherDefaults aid db.addresses) found
      (fun a hpa => by
        simp only [Bool.and_eq_true, beq_iff_eq] at hpa
        exact hpa.1)
      (by simp [hdef])
      (by rw [clearOtherDefaults_map_id]; exact hnodup)
      (clearOtherDefaults_default_id aid db.addresses)
      hfind
    rw [hdef] at hfilter
    constructor
    · rw [← hupd]
      exact hfilter
    · rw [← hupd]
      exact hfoundid

theorem eraseFirst_split (p : α → Bool) (l : List α) (x : α)
    (h : l.find? p = some x) :
    ∃ l1 l2, l = l1 ++ x :: l2 ∧ (∀ y ∈ l1, p y = false) ∧
      eraseFirst p l = l1 ++ l2 := by
  induction l with
  | nil => cases h
  | cons a as ih =>
    by_cases hpa : p a = true
    · rw [List.find?_cons_of_pos _ hpa] at h
      injection h with h
      subst h
      refine ⟨[], as, rfl, ?_, ?_⟩
      · intro y hy
        cases hy
      · simp [eraseFirst, hpa]
    · rw [List.find?_cons_of_neg _ hpa] at h
      obtain ⟨l1, l2, heq, hl1, herase⟩ := ih h
      have hpa' : p a = false := by
        cases hh : p a
        · rfl
        · exact absurd hh hpa
      refine ⟨a :: l1, l2, by rw [List.cons_append, heq], ?_, ?_⟩
      · intro y hy
        rcases List.mem_cons.mp hy with rfl | hy
        · exact hpa'
        · exact hl1 y hy
      · simp [eraseFirst, hpa', herase]

theorem deleteAddress_promotes (aid : String) (db : DB) (d : AddressDoc)
    (hfind : db.addresses.find? (fun a => a._id == aid) = some d)
    (hdef : d.defaultAddress = true)
    (honly : db.addresses.filter (fun a => a.defaultAddress) = [d])
    (hrem : eraseFirst (fun a => a._id == aid) db.addresses ≠ []) :
    (((deleteAddress aid db).2).addresses.filter (fun a => a.defaultAddress)).length = 1 := by
  obtain ⟨l1, l2, heq, -, herase⟩ := eraseFirst_split _ _ _ hfind
  have hsplit : db.addresses.filter (fun a => a.defaultAddress) =
      l1.filter (fun a => a.defaultAddress) ++ d :: l2.filter (fun a => a.defaultAddress) := by
    rw [heq, List.filter_append, List.filter_cons]
    simp [hdef]
  rw [honly] at hsplit
  have hlen := congrArg List.length hsplit
  simp only [List.length_cons, List.length_append, List.length_nil] at hlen
  have h1 : l1.filter (fun a => a.defaultAddress) = [] :=
    List.eq_nil_of_length_eq_zero (by omega)
  have h2 : l2.filter (fun a => a.defaultAddress) = [] :=
    List.eq_nil_of_length_eq_zero (by omega)
  have hnodef : ∀ b ∈ l1 ++ l2, ¬ b.defaultAddress = true := by
    intro b hb
    rcases List.mem_append.mp hb with hb | hb
    · exact (List.filter_eq_nil_iff.mp h1) b hb
    · exact (List.filter_eq_nil_iff.mp h2) b hb
  simp only [deleteAddress, hfind, hdef, if_true, herase]
  cases hr : l1 ++ l2 with
  | nil => exact absurd (herase.trans hr) hrem
  | cons r rs =>
    simp only [List.head?_cons]
    have hpr : (r._id == r._id) = true := beq_self_eq_true r._id
    simp only [updateFirst, hpr, if_true, List.filter_cons]
    have hrs : rs.filter (fun a => a.defaultAddress) = [] := by
      rw [List.filter_eq_nil_iff]
      intro b hb
      exact hnodef b (hr ▸ List.mem_cons_of_mem r hb)
    simp [hrs]

/-- Claim C5: after any address create or update that carries
defaultAddress = true succeeds, the target address is the only address
with defaultAddress = true — the flag having first been cleared on every
other address, globally rather than per-user — and deleting the address
that was the default, when other addresses remain, leaves exactly one
address with defaultAddress = true. -/
theorem default_address_uniqueness (uid nid aid : String) (req : AddrReq) (db : DB)
    (upd d : AddressDoc) :
    (req.defaultAddress = true →
      ((createAddress uid nid req db).2).addresses.filter (fun a => a.defaultAddress) =
        [{ _id := nid, user := uid, fields := req.fields, defaultAddress := true }]) ∧
    ((db.addresses.map (fun a => a._id)).Nodup → req.defaultAddress = true →
      (updateAddress uid aid req db).1 = .ok 200 upd →
      ((updateAddress uid aid req db).2).addresses.filter (fun a => a.defaultAddress) = [upd] ∧
      upd._id = aid) ∧
    (db.addresses.find? (fun a => a._id == aid) = some d → d.defaultAddress = true →
      db.addresses.filter (fun a => a.defaultAddress) = [d] →
      eraseFirst (fun a => a._id == aid) db.addresses ≠ [] →
      (((deleteAddress aid db).2).addresses.filter (fun a => a.defaultAddress)).length = 1) :=
  ⟨fun h => createAddress_filter uid nid req db h,
   fun h1 h2 h3 => updateAddress_ok_filter uid aid req db upd h1 h2 h3,
   fun h1 h2 h3 h4 => deleteAddress_promotes aid db d h1 h2 h3 h4⟩

/-- The address document updateAddress "u2" "b2" produces. -/
def updAddrB : AddressDoc :=
  { _id := "b2", user := "u2", fields := sampleFields, defaultAddress := true }

theorem default_address_uniqueness_witness :
    ((createAddress "u2" "c3" { fields := sampleFields, defaultAddress := true }
        baseDb).2).addresses.filter (fun a => a.defaultAddress) =
      [{ _id := "c3", user := "u2", fields := sampleFields, defaultAddress := true }] ∧
    (((updateAddress "u2" "b2" { fields := sampleFields, defaultAddress := true }
        baseDb).2).addresses.filter (fun a => a.defaultAddress) = [updAddrB] ∧
      updAddrB._id = "b2") ∧
    (((deleteAddress "a1" baseDb).2).addresses.filter (fun a => a.defaultAddress)).length = 1 :=
  ⟨(default_address_uniqueness "u2" "c3" "b2" { fields := sampleFields, defaultAddress := true }
      baseDb updAddrB addrA).1 rfl,
   (default_address_uniqueness "u2" "b2" "b2" { fields := sampleFields, defaultAddress := true }
      baseDb updAddrB addrA).2.1 (by decide) rfl (by decide),
   (default_address_uniqueness "u2" "c3" "a1" { fields := sampleFields, defaultAddress := true }
      baseDb updAddrB addrA).2.2 (by decide) (by decide) (by decide) (by decide)⟩

theorem map_eq_self_of_eq (f : α → α) (l : List α) (h : l.map f = l) :
    ∀ x ∈ l, f x = x := by
  induction l with
  | nil => intro x hx; cases hx
  | cons a as ih =>
    rw [List.map_cons] at h
    injection h with h1 h2
    intro x hx
    rcases List.mem_cons.mp hx with rfl | hx
    · exact h1
    · exact ih h2 x hx

/-- Claim C10: updateAddress modifies an address only when it exists and
is owned by the requester, answering 404 otherwise — but with
defaultAddress = true in the request, the global clearing of every other
address's default flag has already been written before that check, so
the state after the 404 is the cleared state, different from the
original whenever some other address was default. -/
theorem updateAddress_404_after_clearing (uid aid : String) (req : AddrReq) (db : DB)
    (hdef : req.defaultAddress = true)
    (hmiss : (clearOtherDefaults aid db.addresses).find?
        (fun a => a._id == aid && a.user == uid) = none) :
    (updateAddress uid aid req db).1 = .err 404 "Address not found" ∧
    ((updateAddress uid aid req db).2).addresses = clearOtherDefaults aid db.addresses ∧
    ∀ b ∈ db.addresses, b.defaultAddress = true → b._id ≠ aid →
      ((updateAddress uid aid req db).2).addresses ≠ db.addresses := by
  have hres : updateAddress uid aid req db = (.err 404 "Address not found",
      { db with addresses := clearOtherDefaults aid db.addresses }) := by
    simp [updateAddress, hdef, hmiss]
  refine ⟨by rw [hres], by rw [hres], ?_⟩
  intro b hb hbdef hbid heq
  rw [hres] at heq
  simp only [clearOtherDefaults] at heq
  have hfb := map_eq_self_of_eq _ _ heq b hb
  have hcond : (b.defaultAddress && b._id != aid) = true := by
    simp [hbdef, hbid]
  rw [if_pos hcond] at hfb
  have hflag := congrArg AddressDoc.defaultAddress hfb
  rw [hbdef] at hflag
  cases hflag

theorem updateAddress_404_after_clearing_witness :
    (updateAddress "u2" "zz" { fields := sampleFields, defaultAddress := true } baseDb).1 =
      .err 404 "Address not found" ∧
    ((updateAddress "u2" "zz" { fields := sampleFields, defaultAddress := true }
        baseDb).2).addresses = clearOtherDefaults "zz" baseDb.addresses ∧
    ((updateAddress "u2" "zz" { fields := sampleFields, defaultAddress := true }
        baseDb).2).addresses ≠ baseDb.addresses :=
  ⟨(updateAddress_404_after_clearing "u2" "zz"
      { fields := sampleFields, defaultAddress := true } baseDb rfl (by decide)).1,
   (updateAddress_404_after_clearing "u2" "zz"
      { fields := sampleFields, defaultAddress := true } baseDb rfl (by decide)).2.1,
   (updateAddress_404_after_clearing "u2" "zz"
      { fields := sampleFields, defaultAddress := true } baseDb rfl (by decide)).2.2
     addrA (by decide) (by decide) (by decide)⟩

end SwaggerApi
